import Mathlib

/-!
Verification development for the `agora-recorder` wrapper
(`src/AgoraRecorder.ts` and its close variant in `src/unnamed/part_000`).

The TypeScript class `AgoraRecorder` is embedded shallowly:

* `AgoraRecorderConfig` mirrors the constructor's input interface; optional
  fields are `Option`s, and the JavaScript falsiness test `!config.field`
  on a string field is `isFalsyStr` (true for `undefined` and for `""`).
* The constructor's side effects (`fs.mkdirSync`, `new AgoraRecorderSdk()`,
  `initEventHandler()`), and those of `start()` (`fsPromises.writeFile`,
  `sdk.joinChannel`, the two `once` listener registrations) are recorded as
  an explicit `List Action` trace in program order.
* The promise returned by `start()` together with its two `once` listeners
  and the advisory `setTimeout` of the `part_000` variant is the
  `ArbiterState` transition system: `handleCallback` is the handler the
  code installs for each callback kind, and `settle` has JavaScript's
  settle-once promise semantics (a second `resolve`/`reject` is a no-op).
* Node's `path.resolve` / `path.join` are modelled for dot-free segments
  (no `.`/`..` normalisation, which the wrapper never exercises), and
  `JSON.stringify` for the single-key object `Recording_Dir` with
  quote/backslash escaping.
-/

namespace AgoraRecorder

/-- Wall-clock instant, the relevant fields of a JavaScript `Date`
as consumed by `fecha.format` with patterns `YYYY-MM-DD` and `HH:mm:ss`. -/
structure Date where
  year : Nat
  month : Nat
  day : Nat
  hour : Nat
  minute : Nat
  second : Nat
deriving DecidableEq, Repr

/-- Zero-pad a number to two digits, as fecha's `MM`, `DD`, `HH`, `mm`, `ss`. -/
def pad2 (n : Nat) : String :=
  if n < 10 then "0" ++ toString n else toString n

/-- Zero-pad a number to four digits, as fecha's `YYYY`. -/
def pad4 (n : Nat) : String :=
  if n < 10 then "000" ++ toString n
  else if n < 100 then "00" ++ toString n
  else if n < 1000 then "0" ++ toString n
  else toString n

/-- Model of `formatDate(date, 'YYYY-MM-DD')` from the `fecha` library. -/
def formatYYYYMMDD (d : Date) : String :=
  pad4 d.year ++ "-" ++ pad2 d.month ++ "-" ++ pad2 d.day

/-- Model of `formatDate(date, 'HH:mm:ss')` from the `fecha` library. -/
def formatHHmmss (d : Date) : String :=
  pad2 d.hour ++ ":" ++ pad2 d.minute ++ ":" ++ pad2 d.second

/-- Default directory template installed by the constructor when
`config.recordDirTmpl` is undefined. -/
def defaultRecordDirTmpl (channel : String) (date : Date) : String :=
  formatYYYYMMDD date ++ "/" ++ formatHHmmss date ++ " " ++ channel

/-- Whether a string starts with a slash (computed on the character list
so that it reduces definitionally). -/
def startsWithSlash (s : String) : Bool :=
  s.data.head? = some '/'

/-- Whether a string ends with a slash (computed on the character list so
that it reduces definitionally). -/
def endsWithSlash (s : String) : Bool :=
  s.data.getLast? = some '/'

/-- The string without its first character. -/
def strTail (s : String) : String :=
  String.mk (s.data.drop 1)

/-- A POSIX path is absolute when it starts with a slash. -/
def isAbsolutePath (p : String) : Bool :=
  startsWithSlash p

/-- One step of Node's `path.resolve`: an absolute segment resets the
accumulator, an empty segment is skipped, a relative one is appended. -/
def resolveStep (acc seg : String) : String :=
  if isAbsolutePath seg then seg
  else if seg = "" then acc
  else if endsWithSlash acc then acc ++ seg
  else acc ++ "/" ++ seg

/-- Model of Node's `path.resolve(segs...)` run with current working
directory `cwd`, restricted to segments without `.`/`..` components. -/
def pathResolve (cwd : String) (segs : List String) : String :=
  segs.foldl resolveStep cwd

/-- Model of Node's `path.join(a, b)` for dot-free arguments: concatenation
with exactly one separator between the parts. -/
def pathJoin (a b : String) : String :=
  if a = "" then b
  else if b = "" then a
  else if endsWithSlash a then
    (if startsWithSlash b then a ++ strTail b else a ++ b)
  else
    (if startsWithSlash b then a ++ b else a ++ "/" ++ b)

/-- JSON escaping of one character as done by `JSON.stringify` on the
characters that can occur in the wrapper's path strings. -/
def escapeJsonChars : List Char → List Char
  | [] => []
  | c :: cs =>
    (if c = '"' then ['\\', '"']
     else if c = '\\' then ['\\', '\\']
     else [c]) ++ escapeJsonChars cs

/-- JSON string-body escaping, lifted to `String`. -/
def escapeJsonString (s : String) : String :=
  String.mk (escapeJsonChars s.data)

/-- Model of `JSON.stringify(\x7b Recording_Dir: dir \x7d)`: the exact byte
content written to `cfg.json` by `start()`. -/
def jsonStringifyRecordingDir (dir : String) : String :=
  "\x7b\"Recording_Dir\":\"" ++ escapeJsonString dir ++ "\"\x7d"

/-- The `AgoraRecorderConfig` interface. Optional fields are `Option`s;
`recordDirTmpl` is the caller-supplied closure from channel and date to a
relative subdirectory. -/
structure AgoraRecorderConfig where
  appId : String
  certificate : String
  channel : String
  account : Option String
  outputDir : Option String
  recordDirTmpl : Option (String → Date → String)

/-- JavaScript falsiness of an optional string field: `!config.field` is
true when the field is `undefined` or the empty string. -/
def isFalsyStr : Option String → Bool
  | none => true
  | some s => s = ""

/-- The default-filling prefix of the constructor. The TypeScript code
assigns `config.account = 'agora-recorder'` (the `part_000` variant names
the field `userAccount`), `config.outputDir = 'output'` and
`config.recordDirTmpl = ...default...` directly on the caller-supplied
object, so this is both the effective configuration and what the caller's
own reference observes after construction. -/
def applyDefaults (c : AgoraRecorderConfig) : AgoraRecorderConfig :=
  { c with
    account := if isFalsyStr c.account then some "agora-recorder" else c.account
    outputDir := if isFalsyStr c.outputDir then some "output" else c.outputDir
    recordDirTmpl :=
      match c.recordDirTmpl with
      | none => some defaultRecordDirTmpl
      | some t => some t }

/-- The caller's configuration object as observed after the constructor
returns: the constructor mutates it in place to install defaults. -/
def configAfterConstruct (c : AgoraRecorderConfig) : AgoraRecorderConfig :=
  applyDefaults c

/-- The private fields of a constructed `AgoraRecorder`: the (mutated)
config reference and the `Date` captured once in the constructor. -/
structure Recorder where
  config : AgoraRecorderConfig
  date : Date

/-- Model of the vendor token builder
`RtcTokenBuilder.buildTokenWithAccount`: an opaque pure function of its
inputs, kept as a record of them. -/
structure RtcToken where
  appId : String
  certificate : String
  channel : String
  account : String
  role : Nat
  privilegeExpiredTs : Nat
deriving DecidableEq, Repr

/-- Numeric value of `RtcRole.SUBSCRIBER` in `agora-access-token`. -/
def rtcRoleSubscriber : Nat := 2

/-- Call site `RtcTokenBuilder.buildTokenWithAccount(appId, certificate,
channel, account, RtcRole.SUBSCRIBER, 0)`. -/
def buildTokenWithAccount (appId certificate channel account : String)
    (role privilegeExpiredTs : Nat) : RtcToken :=
  ⟨appId, certificate, channel, account, role, privilegeExpiredTs⟩

/-- Observable side effects of the wrapper, recorded in program order:
filesystem calls, native-engine calls, and listener registrations. -/
inductive Action where
  | mkdirSync (path : String)
  | sdkConstruct
  | initEventHandler
  | writeFile (path : String) (content : String)
  | joinChannel (appId : String) (token : RtcToken) (channel : String)
      (account : String) (appliteDir : String) (cfgPath : String)
  | registerOnce (event : String)
  | setMixLayoutNative (layout : Nat)
deriving DecidableEq, Repr

/-- The getter `recordPath`: `path.resolve(config.outputDir,
config.recordDirTmpl(\x7b channel, date \x7d))`, reading the fields of the
recorder after the constructor filled the defaults. -/
def recordPathOf (cwd : String) (r : Recorder) : String :=
  pathResolve cwd
    [r.config.outputDir.getD "",
     (r.config.recordDirTmpl.getD defaultRecordDirTmpl) r.config.channel r.date]

/-- The recorder value produced by the constructor: defaults installed on
the config, then `this.date = new Date()`. -/
def constructRecorder (cfg : AgoraRecorderConfig) (now : Date) : Recorder :=
  ⟨applyDefaults cfg, now⟩

/-- Errors the design-level constructor could raise. The TypeScript
constructor has no validation path, so no run of the model produces one. -/
inductive ConstructError where
  | configurationError
deriving DecidableEq, Repr

/-- The constructor `constructor(private config: AgoraRecorderConfig)`:
fills defaults, captures the date, then runs `fs.mkdirSync(this.recordPath,
recursive)`, `new AgoraRecorderSdk()` and `initEventHandler()`, in that
order, with no validation of the config fields. -/
def construct (cwd : String) (cfg : AgoraRecorderConfig) (now : Date) :
    Except ConstructError (Recorder × List Action) :=
  let r := constructRecorder cfg now
  Except.ok (r,
    [Action.mkdirSync (recordPathOf cwd r),
     Action.sdkConstruct,
     Action.initEventHandler])

/-- Whether construction succeeded (it always does in the code). -/
def constructSucceeds (cwd : String) (cfg : AgoraRecorderConfig) (now : Date) : Bool :=
  match construct cwd cfg now with
  | Except.ok _ => true
  | Except.error _ => false

/-- The constructor's side-effect trace. -/
def constructTrace (cwd : String) (cfg : AgoraRecorderConfig) (now : Date) : List Action :=
  match construct cwd cfg now with
  | Except.ok (_, tr) => tr
  | Except.error _ => []

/-- Synchronous side-effect trace of `start()` up to the point where the
promise is pending: write `cfg.json`, submit `joinChannel`, then register
the `once` listener for `REC_EVENT_JOIN_CHANNEL` and the `once` listener
for `REC_EVENT_ERROR` inside the promise executor. -/
def startTrace (cwd : String) (r : Recorder) : List Action :=
  let recordingDir := recordPathOf cwd r
  let cfgPath := pathJoin recordingDir "/cfg.json"
  [Action.writeFile cfgPath (jsonStringifyRecordingDir recordingDir),
   Action.joinChannel r.config.appId
     (buildTokenWithAccount r.config.appId r.config.certificate
       r.config.channel (r.config.account.getD "") rtcRoleSubscriber 0)
     r.config.channel (r.config.account.getD "")
     (pathResolve cwd ["node_modules", ".bin"]) cfgPath,
   Action.registerOnce "REC_EVENT_JOIN_CHANNEL",
   Action.registerOnce "REC_EVENT_ERROR"]

/-- Recogniser for the `joinChannel` submission in a trace. -/
def isJoinChannel : Action → Bool
  | Action.joinChannel _ _ _ _ _ _ => true
  | _ => false

/-- Recogniser for the registration of a `once` listener on `event`. -/
def isRegisterOnce (event : String) : Action → Bool
  | Action.registerOnce e => e = event
  | _ => false

/-- Recogniser for the `writeFile` call in a trace. -/
def isWriteFile : Action → Bool
  | Action.writeFile _ _ => true
  | _ => false

/-- A settlement of the promise returned by `start()`. `resolved` carries
the value passed to `resolve`; `rejected` carries the argument list the
reject call passes — the code's error listener is `(err) => reject(err)`,
a single number. -/
inductive Settlement where
  | resolved (value : Bool)
  | rejected (payload : List Nat)
deriving DecidableEq, Repr

/-- State of the pending `start()` promise, its two `once` listeners, and
(in the `part_000` variant) the advisory 5-second timeout. `settled` and
`settleCount` describe the promise; the `Active` flags say whether each
`once` listener is still attached; `logs` collects `console.error`
output. -/
structure ArbiterState where
  settled : Option Settlement
  settleCount : Nat
  joinListenerActive : Bool
  errorListenerActive : Bool
  timeoutCleared : Bool
  logs : List String
deriving DecidableEq, Repr

/-- State right after `start()` returns its pending promise: both `once`
listeners attached, timeout armed, nothing settled. -/
def initArbiter : ArbiterState :=
  ⟨none, 0, true, true, false, []⟩

/-- JavaScript promise settlement: a `resolve` or `reject` call on an
already-settled promise is a no-op. -/
def settle (st : ArbiterState) (s : Settlement) : ArbiterState :=
  match st.settled with
  | some _ => st
  | none => { st with settled := some s, settleCount := st.settleCount + 1 }

/-- Callbacks that can reach the pending promise: the two native events
raced by `start()` and the firing of the advisory timeout. -/
inductive JoinCallback where
  | joinSuccess (channel : String) (uid : String)
  | joinError (err : Nat) (statCode : Nat)
  | timeoutFire
deriving DecidableEq, Repr

/-- Dispatch of one callback, as the code installs the handlers:
a `once` listener is detached when its event first fires; the success
handler clears the timeout and calls `resolve(true)`; the error handler
`(err) => reject(err)` clears the timeout and rejects with the error code
alone (the `statCode` emitted alongside is not bound); the timeout handler
only logs `'Joining channel timeout'` and settles nothing. -/
def handleCallback (st : ArbiterState) (cb : JoinCallback) : ArbiterState :=
  match cb with
  | JoinCallback.joinSuccess _ _ =>
    if st.joinListenerActive then
      settle { st with joinListenerActive := false, timeoutCleared := true }
        (Settlement.resolved true)
    else st
  | JoinCallback.joinError err _ =>
    if st.errorListenerActive then
      settle { st with errorListenerActive := false, timeoutCleared := true }
        (Settlement.rejected [err])
    else st
  | JoinCallback.timeoutFire =>
    if st.timeoutCleared then st
    else { st with logs := st.logs ++ ["Joining channel timeout"] }

/-- Deliver a sequence of callbacks to the pending promise in order. -/
def runCallbacks (st : ArbiterState) (cbs : List JoinCallback) : ArbiterState :=
  cbs.foldl handleCallback st

/-- Argument list the rejection carries, when the promise was rejected. -/
def rejectionPayload (st : ArbiterState) : Option (List Nat) :=
  match st.settled with
  | some (Settlement.rejected p) => some p
  | _ => none

/-- Lifecycle states of the session from the design's join state machine;
the TypeScript class itself tracks no such state. -/
inductive JoinState where
  | idle
  | joining
  | joined
  | failed
  | left
deriving DecidableEq, Repr

/-- Errors a guarded control call could raise. -/
inductive ControlError where
  | invalidStateError
deriving DecidableEq, Repr

/-- The method `setMixLayout(layout)`: it forwards unconditionally to
`this.sdk.setMixLayout(layout)` whatever the session's progress, so the
join state argument is ignored and no error path exists. -/
def setMixLayout (state : JoinState) (layout : Nat) :
    Except ControlError (List Action) :=
  Except.ok [Action.setMixLayoutNative layout]

/-- Concrete configuration of the spec's end-to-end scenario: only the
required fields supplied, all optional ones left undefined. -/
def cfgRoom1 : AgoraRecorderConfig :=
  ⟨"A", "C", "room1", none, none, none⟩

/-- The scenario's start instant, 2024-01-01T10:00:00. -/
def dateJan1 : Date :=
  ⟨2024, 1, 1, 10, 0, 0⟩

/-- Recorder constructed from `cfgRoom1` at `dateJan1`. -/
def recRoom1 : Recorder :=
  constructRecorder cfgRoom1 dateJan1

/-- A configuration identical to `cfgRoom1` except for the credentials,
used to show `recordPath` does not depend on them. -/
def cfgRoom1B : AgoraRecorderConfig :=
  ⟨"OTHER_APP", "OTHER_CERT", "room1", none, none, none⟩

/-- Recorder constructed from `cfgRoom1B` at `dateJan1`. -/
def recRoom1B : Recorder :=
  constructRecorder cfgRoom1B dateJan1

/-- A configuration where the caller set every optional string field
to a non-falsy value. -/
def cfgKeep : AgoraRecorderConfig :=
  ⟨"A", "C", "room1", some "alice", some "/data", none⟩

/-- A configuration with an empty channel and otherwise only required
fields, for the validation claims. -/
def cfgEmptyChannel : AgoraRecorderConfig :=
  ⟨"A", "C", "", none, none, none⟩

/-- Reading the `recordPath` getter: it computes from the stored fields
and leaves the recorder untouched. -/
def getRecordPath (cwd : String) (r : Recorder) : String × Recorder :=
  (recordPathOf cwd r, r)

/-- The list of values obtained by reading `recordPath` `n` times in a
row on the same instance, threading the (unchanged) state. -/
def readRecordPathN (cwd : String) (r : Recorder) : Nat → List String
  | 0 => []
  | Nat.succ k =>
    let p := getRecordPath cwd r
    p.1 :: readRecordPathN cwd p.2 k

/-- Joining a slash-free-tail directory with `/cfg.json` is plain
concatenation with one separator. -/
theorem pathJoin_cfg (a : String) (h : endsWithSlash a = false) :
    pathJoin a "/cfg.json" = a ++ "/cfg.json" := by
  by_cases ha : a = ""
  · subst ha; decide
  · unfold pathJoin
    rw [if_neg ha, if_neg (by decide : ¬("/cfg.json" : String) = "")]
    rw [if_neg (by simp [h]), if_pos (by decide : startsWithSlash "/cfg.json" = true)]

/-- JSON escaping is the identity on character lists free of quotes and
backslashes. -/
theorem escapeJsonChars_eq_self (l : List Char)
    (h : ∀ c ∈ l, c ≠ '"' ∧ c ≠ '\\') :
    escapeJsonChars l = l := by
  induction l with
  | nil => rfl
  | cons c cs ih =>
    have hc := h c (List.mem_cons_self c cs)
    have hcs : ∀ x ∈ cs, x ≠ '"' ∧ x ≠ '\\' := fun x hx => h x (List.mem_cons_of_mem c hx)
    simp [escapeJsonChars, hc.1, hc.2, ih hcs]

/-- JSON string escaping is the identity on strings free of quotes and
backslashes. -/
theorem escapeJsonString_eq_self (s : String)
    (h : ∀ c ∈ s.data, c ≠ '"' ∧ c ≠ '\\') :
    escapeJsonString s = s := by
  unfold escapeJsonString
  rw [escapeJsonChars_eq_self s.data h]

/-- C1: Join arbitration settles exactly once. Whatever the payloads, for
a success callback followed by an error callback and for the opposite
order, the first callback settles the `start()` promise in the terminal
state it determines, the second callback leaves the settled state
unchanged, and exactly one effective settlement occurs in total. -/
theorem join_arbitration_settles_once (ch uid : String) (e s : Nat) :
    ((handleCallback initArbiter (JoinCallback.joinSuccess ch uid)).settled
        = some (Settlement.resolved true)
      ∧ (handleCallback (handleCallback initArbiter (JoinCallback.joinSuccess ch uid))
            (JoinCallback.joinError e s)).settled
        = (handleCallback initArbiter (JoinCallback.joinSuccess ch uid)).settled
      ∧ (handleCallback (handleCallback initArbiter (JoinCallback.joinSuccess ch uid))
            (JoinCallback.joinError e s)).settleCount = 1)
    ∧ ((handleCallback initArbiter (JoinCallback.joinError e s)).settled
        = some (Settlement.rejected [e])
      ∧ (handleCallback (handleCallback initArbiter (JoinCallback.joinError e s))
            (JoinCallback.joinSuccess ch uid)).settled
        = (handleCallback initArbiter (JoinCallback.joinError e s)).settled
      ∧ (handleCallback (handleCallback initArbiter (JoinCallback.joinError e s))
            (JoinCallback.joinSuccess ch uid)).settleCount = 1) :=
  ⟨⟨rfl, rfl, rfl⟩, ⟨rfl, rfl, rfl⟩⟩

/-- C3 counterexample: when the native engine reports `join-error(5, 101)`
before any success event, the promise is rejected with the single
argument `5`; the status code `101` is not part of the rejection value,
so the rejection does not carry both native codes. -/
theorem join_error_drops_statcode_cex :
    rejectionPayload (runCallbacks initArbiter [JoinCallback.joinError 5 101]) = some [5]
    ∧ 101 ∉ (rejectionPayload (runCallbacks initArbiter [JoinCallback.joinError 5 101])).getD [] := by
  decide

/-- C3 amended: a join-error callback with error code `e` and status code
`s` arriving before any success event rejects the `start()` promise with
the error code `e` alone — the handler `(err) => reject(err)` binds only
the first emitted argument, dropping the status code. -/
theorem join_error_rejects_with_error_code_only (e s : Nat) :
    (runCallbacks initArbiter [JoinCallback.joinError e s]).settled
      = some (Settlement.rejected [e]) :=
  rfl

/-- C4: the join timeout is advisory. When the timeout fires before either
native callback it settles nothing and only logs, and a real success or
error callback arriving afterwards still settles the promise with the
outcome that callback determines. -/
theorem timeout_is_advisory (ch uid : String) (e s : Nat) :
    (handleCallback initArbiter JoinCallback.timeoutFire).settled = none
    ∧ (handleCallback initArbiter JoinCallback.timeoutFire).settleCount = 0
    ∧ (handleCallback initArbiter JoinCallback.timeoutFire).logs
        = ["Joining channel timeout"]
    ∧ (handleCallback (handleCallback initArbiter JoinCallback.timeoutFire)
          (JoinCallback.joinSuccess ch uid)).settled
        = some (Settlement.resolved true)
    ∧ (handleCallback (handleCallback initArbiter JoinCallback.timeoutFire)
          (JoinCallback.joinError e s)).settled
        = some (Settlement.rejected [e]) :=
  ⟨rfl, rfl, rfl, rfl, rfl⟩

/-- C2 counterexample: in the synchronous trace of `start()` on the
scenario recorder, the `joinChannel` submission is the action at index 1
while the first (and only) registrations of the join-success and
join-error listeners are at indices 2 and 3 — so the listeners are not
registered before the join request is submitted. -/
theorem listeners_registered_after_submit_cex :
    (startTrace "/app" recRoom1).findIdx? isJoinChannel = some 1
    ∧ (startTrace "/app" recRoom1).findIdx? (isRegisterOnce "REC_EVENT_JOIN_CHANNEL") = some 2
    ∧ (startTrace "/app" recRoom1).findIdx? (isRegisterOnce "REC_EVENT_ERROR") = some 3 := by
  refine ⟨rfl, rfl, rfl⟩

/-- C2 amended: for every invocation of `start()`, the join request is
submitted to the native engine first and the two completion listeners are
registered immediately afterwards, still within the same synchronous
execution of `start()` (join-success listener before join-error
listener). -/
theorem listeners_registered_after_submit (cwd : String) (r : Recorder) :
    ∃ i j k, i < j ∧ j < k
      ∧ (startTrace cwd r).findIdx? isJoinChannel = some i
      ∧ (startTrace cwd r).findIdx? (isRegisterOnce "REC_EVENT_JOIN_CHANNEL") = some j
      ∧ (startTrace cwd r).findIdx? (isRegisterOnce "REC_EVENT_ERROR") = some k :=
  ⟨1, 2, 3, by decide, by decide, rfl, rfl, rfl⟩

/-- C5 counterexample: with the channel equal to the empty string (and
only required fields otherwise), construction does not fail — it returns a
recorder, performs the `fs.mkdirSync` filesystem call and constructs the
native engine, so neither "fails with ConfigurationError" nor "zero
filesystem and zero engine calls" holds. -/
theorem construct_no_validation_cex :
    constructSucceeds "/app" cfgEmptyChannel dateJan1 = true
    ∧ Action.sdkConstruct ∈ constructTrace "/app" cfgEmptyChannel dateJan1
    ∧ Action.mkdirSync "/app/output/2024-01-01/10:00:00 " ∈
        constructTrace "/app" cfgEmptyChannel dateJan1 := by
  refine ⟨rfl, ?_, ?_⟩ <;> decide

/-- C5 amended: the constructor performs no validation at all. For every
configuration — including one with an empty channel or empty/missing
credentials — construction succeeds without a `ConfigurationError` and
performs the `mkdirSync` filesystem call, the native-engine construction
and the event-handler wiring, in that order. -/
theorem construct_never_validates (cwd : String) (cfg : AgoraRecorderConfig) (now : Date) :
    constructSucceeds cwd cfg now = true
    ∧ constructTrace cwd cfg now
      = [Action.mkdirSync (recordPathOf cwd (constructRecorder cfg now)),
         Action.sdkConstruct,
         Action.initEventHandler] :=
  ⟨rfl, rfl⟩

/-- C6 counterexample: invoking `setMixLayout` in the `idle` state (before
any join) performs the native `setMixLayout` call and does not raise
`InvalidStateError`. -/
theorem setMixLayout_before_join_cex :
    setMixLayout JoinState.idle 7 = Except.ok [Action.setMixLayoutNative 7]
    ∧ setMixLayout JoinState.idle 7 ≠ Except.error ControlError.invalidStateError := by
  refine ⟨rfl, ?_⟩
  intro h
  exact Except.noConfusion h

/-- C6 amended: `setMixLayout` forwards the layout to the native engine
unconditionally, in every lifecycle state — including all states before
`joined` — and never raises `InvalidStateError`. -/
theorem setMixLayout_forwards_unconditionally (state : JoinState) (layout : Nat) :
    setMixLayout state layout = Except.ok [Action.setMixLayoutNative layout] :=
  rfl

/-- C7: for every recorder whose record path does not end in a slash and
contains no JSON-special characters, `start()` first writes to the file
`cfg.json` directly inside the record path the exact UTF-8 JSON document
with single key `Recording_Dir` mapped to the record path, and only
afterwards (index 1 of the trace) submits the join request. -/
theorem start_writes_cfg_before_join (cwd : String) (r : Recorder)
    (h : endsWithSlash (recordPathOf cwd r) = false)
    (hq : ∀ c ∈ (recordPathOf cwd r).data, c ≠ '"' ∧ c ≠ '\\') :
    (startTrace cwd r).get? 0
      = some (Action.writeFile (recordPathOf cwd r ++ "/cfg.json")
          ("\x7b\"Recording_Dir\":\"" ++ recordPathOf cwd r ++ "\"\x7d"))
    ∧ (startTrace cwd r).findIdx? isWriteFile = some 0
    ∧ (startTrace cwd r).findIdx? isJoinChannel = some 1 := by
  refine ⟨?_, rfl, rfl⟩
  show some (Action.writeFile (pathJoin (recordPathOf cwd r) "/cfg.json")
      (jsonStringifyRecordingDir (recordPathOf cwd r))) = _
  rw [pathJoin_cfg _ h]
  unfold jsonStringifyRecordingDir
  rw [escapeJsonString_eq_self _ hq]

/-- Witness for C7 at the scenario recorder with working directory
`/app`. -/
theorem start_writes_cfg_before_join_witness :
    (startTrace "/app" recRoom1).get? 0
      = some (Action.writeFile (recordPathOf "/app" recRoom1 ++ "/cfg.json")
          ("\x7b\"Recording_Dir\":\"" ++ recordPathOf "/app" recRoom1 ++ "\"\x7d"))
    ∧ (startTrace "/app" recRoom1).findIdx? isWriteFile = some 0
    ∧ (startTrace "/app" recRoom1).findIdx? isJoinChannel = some 1 :=
  start_writes_cfg_before_join "/app" recRoom1 (by decide) (by decide)

/-- C8: `recordPath` is a pure function of the output directory, the
template, the channel and the construction-time date. Any two recorders
agreeing on those four fields yield the same path, and reading the getter
any number of times yields that same path each time, leaving the instance
unchanged. -/
theorem recordPath_pure (cwd : String) (r1 r2 : Recorder) (n : Nat)
    (h1 : r1.config.outputDir = r2.config.outputDir)
    (h2 : r1.config.recordDirTmpl = r2.config.recordDirTmpl)
    (h3 : r1.config.channel = r2.config.channel)
    (h4 : r1.date = r2.date) :
    readRecordPathN cwd r1 n = List.replicate n (recordPathOf cwd r2) := by
  have hp : recordPathOf cwd r1 = recordPathOf cwd r2 := by
    unfold recordPathOf
    rw [h1, h2, h3, h4]
  induction n with
  | zero => rfl
  | succ k ih =>
    simp only [readRecordPathN, getRecordPath, List.replicate, ih, hp]

/-- Witness for C8: two recorders differing only in their credentials
produce the same record path on three successive reads. -/
theorem recordPath_pure_witness :
    readRecordPathN "/app" recRoom1 3 = List.replicate 3 (recordPathOf "/app" recRoom1B) :=
  recordPath_pure "/app" recRoom1 recRoom1B 3 rfl rfl rfl rfl

/-- C9: with no template and no output root supplied, for the config with
appId `A`, certificate `C`, channel `room1` and startedAt
2024-01-01T10:00:00, the record path is the default root `output` under
the working directory followed by the date segment, the time segment and
the raw channel name — in particular it ends with
`2024-01-01/10:00:00 room1`. -/
theorem default_template_record_path :
    recordPathOf "/app" recRoom1 = "/app/output/2024-01-01/10:00:00 room1"
    ∧ "2024-01-01/10:00:00 room1".data.isSuffixOf (recordPathOf "/app" recRoom1).data = true := by
  refine ⟨rfl, ?_⟩
  decide

/-- C10 counterexample: the caller supplied `cfgRoom1` with `account`
undefined; after construction the object the caller passed in has
`account` set to `agora-recorder` — the constructor mutated the
caller-supplied configuration, so it is not unchanged. -/
theorem config_mutated_cex :
    cfgRoom1.account = none
    ∧ (configAfterConstruct cfgRoom1).account = some "agora-recorder"
    ∧ (configAfterConstruct cfgRoom1).account ≠ cfgRoom1.account := by
  refine ⟨rfl, rfl, ?_⟩
  decide

/-- C10 amended: the constructor mutates the caller-supplied configuration
object in place, but only to install defaults: `appId`, `certificate` and
`channel` are always unchanged; `account` and `outputDir` are unchanged
whenever the caller supplied a non-falsy value and otherwise set to
`agora-recorder` and `output` respectively; `recordDirTmpl` is unchanged
whenever supplied and otherwise set to the default template. -/
theorem construct_mutates_only_defaults (cfg : AgoraRecorderConfig) :
    (configAfterConstruct cfg).appId = cfg.appId
    ∧ (configAfterConstruct cfg).certificate = cfg.certificate
    ∧ (configAfterConstruct cfg).channel = cfg.channel
    ∧ (isFalsyStr cfg.account = false → (configAfterConstruct cfg).account = cfg.account)
    ∧ (isFalsyStr cfg.outputDir = false → (configAfterConstruct cfg).outputDir = cfg.outputDir)
    ∧ (∀ t, cfg.recordDirTmpl = some t → (configAfterConstruct cfg).recordDirTmpl = some t)
    ∧ (isFalsyStr cfg.account = true → (configAfterConstruct cfg).account = some "agora-recorder")
    ∧ (isFalsyStr cfg.outputDir = true → (configAfterConstruct cfg).outputDir = some "output")
    ∧ (cfg.recordDirTmpl = none → (configAfterConstruct cfg).recordDirTmpl = some defaultRecordDirTmpl) := by
  refine ⟨rfl, rfl, rfl, ?_, ?_, ?_, ?_, ?_, ?_⟩
  · intro h; simp [configAfterConstruct, applyDefaults, h]
  · intro h; simp [configAfterConstruct, applyDefaults, h]
  · intro t ht; simp [configAfterConstruct, applyDefaults, ht]
  · intro h; simp [configAfterConstruct, applyDefaults, h]
  · intro h; simp [configAfterConstruct, applyDefaults, h]
  · intro h; simp [configAfterConstruct, applyDefaults, h]

/-- Witness for C10 at a configuration where the caller supplied every
optional string field: those fields survive construction unchanged, and
the unsupplied template is defaulted. -/
theorem construct_mutates_only_defaults_witness :
    (configAfterConstruct cfgKeep).appId = cfgKeep.appId
    ∧ (configAfterConstruct cfgKeep).account = cfgKeep.account
    ∧ (configAfterConstruct cfgKeep).outputDir = cfgKeep.outputDir
    ∧ (configAfterConstruct cfgKeep).recordDirTmpl = some defaultRecordDirTmpl :=
  ⟨(construct_mutates_only_defaults cfgKeep).1,
   (construct_mutates_only_defaults cfgKeep).2.2.2.1 (by decide),
   (construct_mutates_only_defaults cfgKeep).2.2.2.2.1 (by decide),
   (construct_mutates_only_defaults cfgKeep).2.2.2.2.2.2.2.2 rfl⟩

end AgoraRecorder
